import Mathlib

/-
Verification development for the AUTOOS execution core.

Shallow embedding of the three core subsystems:
  * Workflow Orchestrator   (src/autoos/orchestration/orchestrator.py)
  * Agent Lifecycle Manager (src/autoos/orchestration/agent_manager.py)
  * Intelligence Routing Fabric (src/autoos/execution/intelligence_fabric.py)

Conventions used throughout:
  * Python floats are modelled as rationals (ℚ); the arithmetic the code
    performs on them (min/max, +, *, /) is carried over literally.
  * Python dicts are modelled as association lists (`List (String × _)`);
    dict insertion keeps the key set and replaces the value on an
    existing key.
  * Exceptions are modelled with `Except String`: `.error msg` is a raised
    exception whose `str(...)` is `msg`, `.ok` a normal return.
  * Timestamps, logging, metrics and event-bus publications are pure
    side channels with no influence on the values computed; they are
    omitted from the embedding.
-/

-- ===========================================================================
-- Python string primitives used by the orchestrator's failure classifier
-- ===========================================================================

/-- Does `pat` occur at the head of `s`?  (helper for substring search). -/
def seg_at_head : List Char → List Char → Bool
  | _, [] => true
  | [], _ :: _ => false
  | a :: as, b :: bs => a == b && seg_at_head as bs

/-- Does `pat` occur contiguously anywhere in `s`?  Models Python's
`pat in s` on strings (contiguous substring containment). -/
def has_seg : List Char → List Char → Bool
  | _, [] => true
  | [], _ :: _ => false
  | a :: as, pat => seg_at_head (a :: as) pat || has_seg as pat

/-- Python `pat in s` for strings. -/
def py_substr (pat s : String) : Bool :=
  has_seg s.data pat.data

/-- ASCII lower-casing of one character; models Python's `str.lower` on the
ASCII inputs the classifier deals with. -/
def lower_char (c : Char) : Char :=
  if c.isUpper then Char.ofNat (c.toNat + 32) else c

/-- Python `s.lower()` (ASCII fragment). -/
def py_lower (s : String) : String :=
  ⟨s.data.map lower_char⟩

-- ===========================================================================
-- Failure taxonomy and classifier (orchestrator.py)
-- ===========================================================================

/-- `FailureType` enum from core/models.py. -/
inductive FailureType where
  | TRANSIENT
  | MODEL_ERROR
  | TOOL_ERROR
  | RESOURCE_EXHAUSTION
  | POLICY_VIOLATION
  | TIMEOUT
  | UNKNOWN
deriving DecidableEq, Repr

/-- `Orchestrator._classify_failure`: fixed-priority substring checks over the
lower-cased error text.  The source computes `error_str = str(error).lower()`
once; here it is inlined at each test (the function is pure). -/
def classify_failure (error : String) : FailureType :=
  if py_substr "timeout" (py_lower error) then .TIMEOUT
  else if py_substr "rate limit" (py_lower error) || py_substr "quota" (py_lower error) then
    .RESOURCE_EXHAUSTION
  else if py_substr "policy" (py_lower error) || py_substr "unauthorized" (py_lower error) then
    .POLICY_VIOLATION
  else if py_substr "model" (py_lower error) || py_substr "llm" (py_lower error) then
    .MODEL_ERROR
  else if py_substr "tool" (py_lower error) then .TOOL_ERROR
  else .UNKNOWN

/-- The `action_type` of the `RecoveryAction` that `Orchestrator.handle_failure`
builds for each classification. -/
def recovery_action_type (failure_type : FailureType) : String :=
  match failure_type with
  | .TRANSIENT => "retry"
  | .MODEL_ERROR => "llm_swap"
  | .TOOL_ERROR => "agent_swap"
  | _ => "escalate"

/-- `Orchestrator.handle_failure`, reduced to the `action_type` it returns for
a given error text (the remaining fields of `RecoveryAction` only echo the
step id and error). -/
def handle_failure (error : String) : String :=
  recovery_action_type (classify_failure error)

-- ===========================================================================
-- Trust levels and allowed tools (agent_manager.py, tool_executor.py)
-- ===========================================================================

/-- `TrustLevel` enum from core/models.py, ordered
restricted < standard < elevated < privileged. -/
inductive TrustLevel where
  | RESTRICTED
  | STANDARD
  | ELEVATED
  | PRIVILEGED
deriving DecidableEq, Repr

/-- Position of a trust level in the declared order. -/
def trust_rank : TrustLevel → Nat
  | .RESTRICTED => 0
  | .STANDARD => 1
  | .ELEVATED => 2
  | .PRIVILEGED => 3

/-- `AgentManager._get_allowed_tools`: the fixed trust-level → tool-list
table.  Note that PRIVILEGED maps to the literal one-element marker list
`["all"]`, not to a superset of the other lists. -/
def get_allowed_tools : TrustLevel → List String
  | .RESTRICTED => ["read_file", "list_directory"]
  | .STANDARD => ["read_file", "list_directory", "write_file", "http_request"]
  | .ELEVATED =>
      ["read_file", "list_directory", "write_file", "http_request", "execute_command"]
  | .PRIVILEGED => ["all"]

/-- The allowed-list clause of `ToolExecutor`'s authorization check
(tool_executor.py line 210): a tool passes iff the agent's allowed-tool list
contains the wildcard marker "all" or the tool's own name. -/
def tool_in_allowed (allowed_tools : List String) (tool_name : String) : Bool :=
  allowed_tools.contains "all" || allowed_tools.contains tool_name

-- ===========================================================================
-- Agent lifecycle manager state (agent_manager.py)
-- ===========================================================================

/-- The part of `AgentManager`'s state the capacity claim is about: the
configured ceiling and the key set of the `active_agents` dict.  Agent ids
are produced by `uuid.uuid4()`; the embedding takes them as inputs. -/
structure AgentManagerState where
  max_concurrent_agents : Nat
  active_agents : List String
deriving DecidableEq, Repr

/-- Text of the capacity error raised by `spawn_agent`. -/
def capacity_error_msg (m : Nat) : String :=
  "Maximum concurrent agents (" ++ toString m ++ ") reached"

/-- `AgentManager.spawn_agent`, restricted to its effect on the active set:
raises the capacity error when `len(active_agents) >= max_concurrent_agents`,
otherwise records the new agent id (dict insertion: an already-present key
keeps the key set unchanged). -/
def spawn_agent (st : AgentManagerState) (new_id : String) : Except String AgentManagerState :=
  if st.max_concurrent_agents ≤ st.active_agents.length then
    .error (capacity_error_msg st.max_concurrent_agents)
  else
    .ok { st with active_agents :=
            if st.active_agents.contains new_id then st.active_agents
            else st.active_agents ++ [new_id] }

/-- `AgentManager.retire_agent`: unknown ids are a logged no-op; known ids are
deleted from the active set. -/
def retire_agent (st : AgentManagerState) (agent_id : String) : AgentManagerState :=
  if st.active_agents.contains agent_id then
    { st with active_agents := st.active_agents.erase agent_id }
  else st

/-- A call against the manager, as issued by the orchestrator. -/
inductive ManagerOp where
  | spawn (id : String)
  | retire (id : String)

/-- One manager call as the orchestrator observes it: a spawn that raises the
capacity error leaves the state unchanged. -/
def apply_manager_op (st : AgentManagerState) : ManagerOp → AgentManagerState
  | .spawn id =>
    match spawn_agent st id with
    | .ok st' => st'
    | .error _ => st
  | .retire id => retire_agent st id

/-- A sequence of manager calls. -/
def apply_manager_ops (st : AgentManagerState) (ops : List ManagerOp) : AgentManagerState :=
  ops.foldl apply_manager_op st

/-- `AgentManager.__init__`: the active set starts empty. -/
def init_manager (max_concurrent_agents : Nat) : AgentManagerState :=
  ⟨max_concurrent_agents, []⟩

-- ===========================================================================
-- Step execution with local retry (Orchestrator.execute_step)
-- ===========================================================================

/-- `RetryConfig` from core/models.py (defaults 3 / 2.0 / 1.0 / 60.0). -/
structure RetryConfig where
  max_attempts : Nat
  backoff_multiplier : ℚ
  initial_delay_seconds : ℚ
  max_delay_seconds : ℚ
deriving DecidableEq, Repr

/-- `TaskResult` from core/models.py, restricted to the fields the retry
logic determines (`output`, `reasoning` and the wall-clock `latency` are
carried along unchanged and omitted here). -/
structure TaskResult where
  success : Bool
  confidence : ℚ
  cost : ℚ
  errors : List String
deriving DecidableEq, Repr

/-- The `TaskResult` built on the success path of `execute_step`
(success=True, confidence=0.85, cost=0.01, errors=[]). -/
def step_success_result : TaskResult := ⟨true, 85/100, 1/100, []⟩

/-- The `TaskResult` built by `execute_step`'s outer exception handler
(success=False, confidence=0.0, cost=0.0, errors=[str(e)]). -/
def step_failed_result (e : String) : TaskResult := ⟨false, 0, 0, [e]⟩

/-- `str` of the `TypeError` CPython raises for `raise None` — reached only
when `max_attempts = 0`, where the loop body never runs and
`raise last_error` raises `None`. -/
def raised_msg : Option String → String
  | some e => e
  | none => "exceptions must derive from BaseException"

/-- The backoff delay computed inside the retry loop:
`min(initial_delay * multiplier ** retry_count, max_delay)`, where
`retry_count` has already been incremented for the current failure. -/
def backoff_delay (cfg : RetryConfig) (retry_count : Nat) : ℚ :=
  min (cfg.initial_delay_seconds * cfg.backoff_multiplier ^ retry_count)
    cfg.max_delay_seconds

/-- The `while retry_count < max_attempts` loop of `execute_step`.
`attempt_raises k` is the outcome of the (placeholder) step-execution body on
0-based attempt `k`: `some msg` when it raises, `none` when it returns the
success result.  `fuel` is the number of loop iterations still permitted
(`max_attempts - retry_count`; the callers maintain this invariant), so
`fuel = 0` is the loop exiting and raising `last_error`.  Returns the
raised-or-returned outcome together with the list of backoff sleeps
performed, in order. -/
def retry_loop (cfg : RetryConfig) (attempt_raises : Nat → Option String) :
    Nat → Nat → Option String → Except String TaskResult × List ℚ
  | 0, _, last_error => (.error (raised_msg last_error), [])
  | fuel + 1, retry_count, _ =>
    match attempt_raises retry_count with
    | none => (.ok step_success_result, [])
    | some e =>
      if retry_count + 1 < cfg.max_attempts then
        let rest := retry_loop cfg attempt_raises fuel (retry_count + 1) (some e)
        (rest.1, backoff_delay cfg (retry_count + 1) :: rest.2)
      else (.error e, [])

/-- `Orchestrator.execute_step`: runs the retry loop inside the outer
`try/except`, which converts any raised error into a failed `TaskResult` —
so the first component is `.ok` on every input and no exception reaches the
caller. -/
def execute_step (cfg : RetryConfig) (attempt_raises : Nat → Option String) :
    Except String TaskResult × List ℚ :=
  match retry_loop cfg attempt_raises cfg.max_attempts 0 none with
  | (.ok r, ds) => (.ok r, ds)
  | (.error e, ds) => (.ok (step_failed_result e), ds)

-- ===========================================================================
-- Workflow state persistence (Orchestrator.persist_state / restore_state)
-- ===========================================================================

/-- `WorkflowState` enum from core/models.py. -/
inductive WorkflowState where
  | PENDING
  | RUNNING
  | PAUSED
  | COMPLETED
  | FAILED
  | CANCELLED
deriving DecidableEq, Repr

/-- The `.value` string of each `WorkflowState` member. -/
def workflow_state_value : WorkflowState → String
  | .PENDING => "pending"
  | .RUNNING => "running"
  | .PAUSED => "paused"
  | .COMPLETED => "completed"
  | .FAILED => "failed"
  | .CANCELLED => "cancelled"

/-- `WorkflowState(value)` — enum lookup by value; an unknown value raises,
modelled as `none`. -/
def workflow_state_of_value (s : String) : Option WorkflowState :=
  if s = "pending" then some .PENDING
  else if s = "running" then some .RUNNING
  else if s = "paused" then some .PAUSED
  else if s = "completed" then some .COMPLETED
  else if s = "failed" then some .FAILED
  else if s = "cancelled" then some .CANCELLED
  else none

/-- `FallbackStrategy` from core/models.py (`alternative_approach` is a
free-form dict, modelled as a string association list). -/
structure FallbackStrategy where
  strategy_type : String
  trigger_condition : String
  alternative_approach : List (String × String)
deriving DecidableEq, Repr

/-- `WorkflowStep` from core/models.py. -/
structure WorkflowStep where
  step_id : String
  goal_id : String
  required_capabilities : List String
  dependencies : List String
  retry_config : RetryConfig
  fallback_strategy : FallbackStrategy
  checkpoint : Bool
deriving DecidableEq, Repr

/-- `Workflow` from core/models.py; `steps` is the step-id → step dict and
`metadata` a free-form dict, both modelled as association lists. -/
structure Workflow where
  workflow_id : String
  steps : List (String × WorkflowStep)
  execution_order : List (List String)
  state : WorkflowState
  metadata : List (String × String)
deriving DecidableEq, Repr

/-- The snapshot dict `persist_state` writes to the fast key-value store
(the `timestamp` field is a wall-clock side channel and omitted; the
per-step `to_dict()` serialization round-trips the step and is modelled as
the step itself). -/
structure PersistedState where
  workflow_id : String
  state : String
  steps : List (String × WorkflowStep)
  execution_order : List (List String)
  metadata : List (String × String)
deriving DecidableEq, Repr

/-- Dict insertion for an association-list store: replaces the value on an
existing key, appends otherwise. -/
def kv_set {α : Type} (store : List (String × α)) (k : String) (v : α) :
    List (String × α) :=
  match store with
  | [] => [(k, v)]
  | (k', v') :: rest => if k' = k then (k, v) :: rest else (k', v') :: kv_set rest k v

/-- The working-memory store keyed by workflow id. -/
def WorkflowStore : Type := List (String × PersistedState)

/-- `Orchestrator.persist_state`: serializes workflow id, state value, steps,
execution order and metadata to the store under the workflow id. -/
def persist_state (store : WorkflowStore) (w : Workflow) : WorkflowStore :=
  kv_set store w.workflow_id
    ⟨w.workflow_id, workflow_state_value w.state, w.steps, w.execution_order, w.metadata⟩

/-- `Orchestrator.restore_state`: reads the snapshot back and reconstructs a
`Workflow` — but only from `workflow_id`, `state`, `execution_order` and
`metadata`; the `steps` entry of the snapshot is not read, so the
reconstructed workflow carries the dataclass default `steps = {}`. -/
def restore_state (store : WorkflowStore) (workflow_id : String) : Option Workflow :=
  (List.lookup workflow_id store).bind fun st =>
    (workflow_state_of_value st.state).map fun ws =>
      { workflow_id := st.workflow_id
        steps := []
        execution_order := st.execution_order
        state := ws
        metadata := st.metadata }

/-- A concrete one-step workflow exercising the persistence round trip. -/
def sample_workflow : Workflow :=
  ⟨"wf-1",
   [("s1", ⟨"s1", "g1", ["research"], [], ⟨3, 2, 1, 60⟩, ⟨"agent_swap", "", []⟩, true⟩)],
   [["s1"]], .PENDING, [("owner", "alice")]⟩

-- ===========================================================================
-- Intelligence routing fabric: provider scoreboard (intelligence_fabric.py)
-- ===========================================================================

/-- `LLMProvider` from core/models.py, restricted to the fields the fabric
reads and writes (`provider_id` and `api_endpoint` are inert identifiers and
omitted). -/
structure LLMProvider where
  provider_name : String
  model_name : String
  cost_per_token : ℚ
  avg_latency : ℚ
  reliability_score : ℚ
  capabilities : List String
deriving DecidableEq, Repr

/-- `LLMResponse` from core/models.py (`role` and `timestamp` are inert
metadata and omitted). -/
structure LLMResponse where
  provider : LLMProvider
  prompt : String
  response : String
  confidence : ℚ
  tokens_used : Nat
  latency : ℚ
  cost : ℚ
deriving DecidableEq, Repr

/-- `ModelCapabilityRegistry.update_performance`: exponential smoothing of the
average latency (0.9·old + 0.1·new), then reliability +0.01 capped at 1.0 on
success or −0.05 floored at 0.0 on failure. -/
def update_performance (p : LLMProvider) (latency : ℚ) (success : Bool) : LLMProvider :=
  let p1 := { p with avg_latency := p.avg_latency * (9/10) + latency * (1/10) }
  if success then
    { p1 with reliability_score := min 1 (p1.reliability_score + 1/100) }
  else
    { p1 with reliability_score := max 0 (p1.reliability_score - 1/20) }

/-- A concrete provider with mid-range reliability for the C8 witness. -/
def sample_provider : LLMProvider :=
  ⟨"openai", "gpt-4", 3/100000, 2, 1/2, ["reasoning", "planning", "analysis"]⟩

-- ===========================================================================
-- Cross-verification (IntelligenceFabric.cross_verify)
-- ===========================================================================

/-- One entry of `cross_verify`'s discrepancy list.  The source interpolates
this data into the string "Model {name} disagreed (similarity: {x:.2f})";
the embedding keeps the data itself. -/
structure Discrepancy where
  model_name : String
  similarity : ℚ
deriving DecidableEq, Repr

/-- `VerificationResult` from core/models.py. -/
structure VerificationResult where
  consensus : Bool
  selected_response : Option LLMResponse
  discrepancies : List Discrepancy
  confidence : ℚ
deriving DecidableEq, Repr

/-- The nested `for i / for j in range(i+1, n)` similarity loop: pairwise
similarities in pair-enumeration order (0,1), (0,2), …, (1,2), ….
`sim` abstracts `difflib.SequenceMatcher(None, a, b).ratio()`, the stdlib
collaborator computing the ratio of matching contiguous blocks. -/
def pair_similarities (sim : String → String → ℚ) : List LLMResponse → List ℚ
  | [] => []
  | r :: rest =>
    rest.map (fun r' => sim r.response r'.response) ++ pair_similarities sim rest

/-- Python's `max(responses, key=lambda r: r.confidence)`: keeps the first
maximal element. -/
def py_max_by_confidence : LLMResponse → List LLMResponse → LLMResponse
  | best, [] => best
  | best, r :: rest =>
    py_max_by_confidence (if best.confidence < r.confidence then r else best) rest

/-- The `for i, response in enumerate(responses)` discrepancy loop run on the
no-consensus path: every response other than the selected one contributes an
entry whose reported similarity is `similarities[i] if i < len(similarities)
else 0` — the response's index `i` applied to the PAIR-ordered similarity
list. -/
def discrepancy_list (similarities : List ℚ) (selected : LLMResponse) :
    Nat → List LLMResponse → List Discrepancy
  | _, [] => []
  | i, r :: rest =>
    (if r = selected then [] else
      [⟨r.provider.model_name,
        if i < similarities.length then similarities.getD i 0 else 0⟩]) ++
      discrepancy_list similarities selected (i + 1) rest

/-- `IntelligenceFabric.cross_verify`. -/
def cross_verify (sim : String → String → ℚ) (responses : List LLMResponse) :
    VerificationResult :=
  match responses with
  | [] => ⟨true, none, [], 0⟩
  | [r] => ⟨true, some r, [], r.confidence⟩
  | r0 :: r1 :: rest =>
    let similarities := pair_similarities sim (r0 :: r1 :: rest)
    let avg_similarity : ℚ :=
      if similarities = [] then 0 else similarities.sum / (similarities.length : ℚ)
    let consensus : Bool := decide ((7/10 : ℚ) < avg_similarity)
    let selected := py_max_by_confidence r0 (r1 :: rest)
    let discrepancies :=
      if consensus then [] else discrepancy_list similarities selected 0 (r0 :: r1 :: rest)
    ⟨consensus, some selected, discrepancies,
     if consensus then selected.confidence else selected.confidence * (1/2)⟩

/-- A second concrete response sharing `sample_response_a`'s text, for the C6
witness. -/
def sample_response_a : LLMResponse :=
  ⟨sample_provider, "prompt", "the answer is 42", 9/10, 12, 1, 1/100⟩

/-- A second concrete response sharing the same text with lower confidence. -/
def sample_response_b : LLMResponse :=
  ⟨⟨"anthropic", "claude-3-opus-20240229", 15/1000000, 3, 1, ["reasoning"]⟩,
   "prompt", "the answer is 42", 7/10, 15, 2, 1/100⟩

/-- A concrete similarity function standing for `SequenceMatcher.ratio` on
the C7 inputs: every pair of texts scores 1/4. -/
def sim_quarter : String → String → ℚ := fun _ _ => 1/4

/-- Low-similarity response pair: highest confidence first. -/
def response_m0 : LLMResponse :=
  ⟨⟨"openai", "gpt-4", 3/100000, 2, 1, []⟩, "p", "alpha", 9/10, 5, 1, 1/100⟩

/-- Low-similarity response pair: lower confidence second. -/
def response_m1 : LLMResponse :=
  ⟨⟨"anthropic", "claude-3-opus-20240229", 15/1000000, 3, 1, []⟩,
   "p", "omega", 1/2, 5, 1, 1/100⟩

-- ===========================================================================
-- Ranked-provider fallback (IntelligenceFabric.execute_with_fallback)
-- ===========================================================================

/-- Python `str(None)` / `str(e)` for the combined failure message. -/
def opt_err_str : Option String → String
  | none => "None"
  | some e => e

/-- `IntelligenceFabric.execute_with_fallback` on the ranked provider
snapshot returned by `get_providers_by_role`, with `call_llm`'s behaviour
inlined: a successful backend call feeds `update_performance(p, latency,
True)`; a failing one feeds `update_performance(p, 0.0, False)` and
re-raises, which the loop catches, remembering the error as `last_error`.
`call` abstracts the backend collaborator (API keys for every registered
provider are assumed configured).  Returns the provider snapshot with the
in-place score mutations applied, together with the outcome: the first
success short-circuits; if every provider fails the loop raises the
combined error carrying `last_error`. -/
def execute_with_fallback (call : LLMProvider → Except String LLMResponse) :
    List LLMProvider → Option String → List LLMProvider × Except String LLMResponse
  | [], last_error =>
    ([], .error ("All LLM providers failed: " ++ opt_err_str last_error))
  | p :: rest, _ =>
    match call p with
    | .ok r => (update_performance p r.latency true :: rest, .ok r)
    | .error e =>
      let res := execute_with_fallback call rest (some e)
      (update_performance p 0 false :: res.1, res.2)

/-- First-ranked provider with reliability already at the 0.0 floor. -/
def provider_a_zero : LLMProvider := ⟨"openai", "gpt-4", 3/100000, 2, 0, []⟩

/-- First-ranked provider with mid-range reliability 0.5. -/
def provider_a_half : LLMProvider := ⟨"openai", "gpt-4", 3/100000, 2, 1/2, []⟩

/-- Second-ranked provider whose call succeeds. -/
def provider_b : LLMProvider :=
  ⟨"anthropic", "claude-3-opus-20240229", 15/1000000, 3, 1, []⟩

/-- The response provider B returns. -/
def response_b : LLMResponse := ⟨provider_b, "p", "fine", 4/5, 6, 2, 1/100⟩

/-- Backend behaviour: every "openai" provider fails, everything else
returns `response_b`. -/
def call_ab : LLMProvider → Except String LLMResponse :=
  fun p => if p.provider_name = "openai" then .error "model overloaded" else .ok response_b

-- ===========================================================================
-- Lemmas and claim theorems
-- ===========================================================================

/-- Claim C2: the classifier follows the fixed priority of substring checks on
the lower-cased error text (timeout, then rate-limit/quota, then
policy/unauthorized, then model/llm, then tool, else unknown), the recovery
ladder maps TRANSIENT to retry, MODEL_ERROR to llm_swap, TOOL_ERROR to
agent_swap and every other type to escalate, and an error containing both
"model" and "timeout" classifies as TIMEOUT and escalates. -/
theorem C2_classifier_priority_and_ladder :
    (∀ e, py_substr "timeout" (py_lower e) = true →
      classify_failure e = .TIMEOUT ∧ handle_failure e = "escalate")
  ∧ (∀ e, py_substr "timeout" (py_lower e) = false →
      (py_substr "rate limit" (py_lower e) || py_substr "quota" (py_lower e)) = true →
      classify_failure e = .RESOURCE_EXHAUSTION ∧ handle_failure e = "escalate")
  ∧ (∀ e, py_substr "timeout" (py_lower e) = false →
      (py_substr "rate limit" (py_lower e) || py_substr "quota" (py_lower e)) = false →
      (py_substr "policy" (py_lower e) || py_substr "unauthorized" (py_lower e)) = true →
      classify_failure e = .POLICY_VIOLATION ∧ handle_failure e = "escalate")
  ∧ (∀ e, py_substr "timeout" (py_lower e) = false →
      (py_substr "rate limit" (py_lower e) || py_substr "quota" (py_lower e)) = false →
      (py_substr "policy" (py_lower e) || py_substr "unauthorized" (py_lower e)) = false →
      (py_substr "model" (py_lower e) || py_substr "llm" (py_lower e)) = true →
      classify_failure e = .MODEL_ERROR ∧ handle_failure e = "llm_swap")
  ∧ (∀ e, py_substr "timeout" (py_lower e) = false →
      (py_substr "rate limit" (py_lower e) || py_substr "quota" (py_lower e)) = false →
      (py_substr "policy" (py_lower e) || py_substr "unauthorized" (py_lower e)) = false →
      (py_substr "model" (py_lower e) || py_substr "llm" (py_lower e)) = false →
      py_substr "tool" (py_lower e) = true →
      classify_failure e = .TOOL_ERROR ∧ handle_failure e = "agent_swap")
  ∧ (∀ e, py_substr "timeout" (py_lower e) = false →
      (py_substr "rate limit" (py_lower e) || py_substr "quota" (py_lower e)) = false →
      (py_substr "policy" (py_lower e) || py_substr "unauthorized" (py_lower e)) = false →
      (py_substr "model" (py_lower e) || py_substr "llm" (py_lower e)) = false →
      py_substr "tool" (py_lower e) = false →
      classify_failure e = .UNKNOWN ∧ handle_failure e = "escalate")
  ∧ recovery_action_type .TRANSIENT = "retry"
  ∧ classify_failure "Model timeout after 30s" = .TIMEOUT
  ∧ handle_failure "Model timeout after 30s" = "escalate" := by
  refine ⟨?_, ?_, ?_, ?_, ?_, ?_, rfl, ?_, ?_⟩
  · intro e h1
    constructor <;> simp [classify_failure, handle_failure, recovery_action_type, h1]
  · intro e h1 h2
    constructor <;> simp [classify_failure, handle_failure, recovery_action_type, h1, h2]
  · intro e h1 h2 h3
    constructor <;> simp [classify_failure, handle_failure, recovery_action_type, h1, h2, h3]
  · intro e h1 h2 h3 h4
    constructor <;>
      simp [classify_failure, handle_failure, recovery_action_type, h1, h2, h3, h4]
  · intro e h1 h2 h3 h4 h5
    constructor <;>
      simp [classify_failure, handle_failure, recovery_action_type, h1, h2, h3, h4, h5]
  · intro e h1 h2 h3 h4 h5
    constructor <;>
      simp [classify_failure, handle_failure, recovery_action_type, h1, h2, h3, h4, h5]
  · decide
  · decide

/-- Witness for C2: the first conjunct applied to the concrete error text
"Model timeout after 30s". -/
theorem C2_classifier_priority_and_ladder_witness :
    classify_failure "Model timeout after 30s" = .TIMEOUT ∧
    handle_failure "Model timeout after 30s" = "escalate" :=
  C2_classifier_priority_and_ladder.1 "Model timeout after 30s" (by decide)

/-- Claim C10: the substring classifier never returns TRANSIENT, so
`handle_failure` never returns "retry"; the returned action is always one of
llm_swap, agent_swap or escalate. -/
theorem C10_retry_rung_unreachable (e : String) :
    classify_failure e ≠ .TRANSIENT
  ∧ handle_failure e ≠ "retry"
  ∧ (handle_failure e = "llm_swap" ∨ handle_failure e = "agent_swap" ∨
      handle_failure e = "escalate") := by
  have h : classify_failure e ≠ .TRANSIENT := by
    unfold classify_failure
    split_ifs <;> simp
  refine ⟨h, ?_, ?_⟩ <;>
    · unfold handle_failure recovery_action_type
      revert h
      cases classify_failure e <;> simp

/-- Witness for C10 at a concrete error text. -/
theorem C10_retry_rung_unreachable_witness :
    classify_failure "connection reset" ≠ .TRANSIENT ∧
    handle_failure "connection reset" ≠ "retry" ∧
    (handle_failure "connection reset" = "llm_swap" ∨
      handle_failure "connection reset" = "agent_swap" ∨
      handle_failure "connection reset" = "escalate") :=
  C10_retry_rung_unreachable "connection reset"

/-- Claim C4, counterexample: the computed allowed-tool lists are NOT nested
at elevated < privileged — "execute_command" is in the elevated list but the
privileged list is the literal marker `["all"]`, which does not contain it. -/
theorem C4_counterexample :
    trust_rank .ELEVATED < trust_rank .PRIVILEGED
  ∧ "execute_command" ∈ get_allowed_tools .ELEVATED
  ∧ "execute_command" ∉ get_allowed_tools .PRIVILEGED := by
  decide

/-- Claim C4 as amended: the computed lists are nested along
restricted ⊆ standard ⊆ elevated, and under the tool executor's
authorization check (where "all" is a wildcard permitting every tool) the
effective authorized-tool sets are monotone in the trust order for ALL pairs
T1 ≤ T2, privileged included. -/
theorem C4_amended_tool_sets_monotone :
    (∀ t ∈ get_allowed_tools .RESTRICTED, t ∈ get_allowed_tools .STANDARD)
  ∧ (∀ t ∈ get_allowed_tools .STANDARD, t ∈ get_allowed_tools .ELEVATED)
  ∧ (∀ t1 t2 : TrustLevel, trust_rank t1 ≤ trust_rank t2 → ∀ name : String,
      tool_in_allowed (get_allowed_tools t1) name = true →
      tool_in_allowed (get_allowed_tools t2) name = true) := by
  refine ⟨by decide, by decide, ?_⟩
  intro t1 t2 h name hn
  cases t1 <;> cases t2 <;>
    simp_all [trust_rank, get_allowed_tools, tool_in_allowed] <;>
    tauto

/-- Witness for C4's amended theorem: restricted ≤ standard applied to
"read_file". -/
theorem C4_amended_tool_sets_monotone_witness :
    tool_in_allowed (get_allowed_tools .STANDARD) "read_file" = true :=
  C4_amended_tool_sets_monotone.2.2 .RESTRICTED .STANDARD (by decide) "read_file" (by decide)

lemma apply_manager_op_inv (st : AgentManagerState) (op : ManagerOp)
    (h : st.active_agents.length ≤ st.max_concurrent_agents) :
    (apply_manager_op st op).active_agents.length ≤
      (apply_manager_op st op).max_concurrent_agents ∧
    (apply_manager_op st op).max_concurrent_agents = st.max_concurrent_agents := by
  cases op with
  | spawn id =>
    by_cases hc : st.max_concurrent_agents ≤ st.active_agents.length
    · simp [apply_manager_op, spawn_agent, hc, h]
    · by_cases hm : id ∈ st.active_agents
      · simp [apply_manager_op, spawn_agent, hc, hm, h]
      · simp [apply_manager_op, spawn_agent, hc, hm]
        omega
  | retire id =>
    by_cases hm : id ∈ st.active_agents
    · simp [apply_manager_op, retire_agent, hm]
      omega
    · simp [apply_manager_op, retire_agent, hm, h]

lemma apply_manager_ops_inv (ops : List ManagerOp) :
    ∀ st : AgentManagerState, st.active_agents.length ≤ st.max_concurrent_agents →
    (apply_manager_ops st ops).active_agents.length ≤ st.max_concurrent_agents := by
  induction ops with
  | nil => intro st h; simpa [apply_manager_ops] using h
  | cons op rest ih =>
    intro st h
    have h1 := apply_manager_op_inv st op h
    have h2 := ih (apply_manager_op st op) h1.1
    simpa [apply_manager_ops, h1.2] using h2

/-- Claim C5: a spawn issued at or above the ceiling raises the capacity
error and leaves the active set unchanged, and consequently, starting from
the empty manager state, the number of active agents never exceeds the
ceiling after any sequence of spawn/retire calls. -/
theorem C5_capacity_invariant :
    (∀ (st : AgentManagerState) (id : String),
      st.max_concurrent_agents ≤ st.active_agents.length →
      spawn_agent st id = .error (capacity_error_msg st.max_concurrent_agents) ∧
      apply_manager_op st (.spawn id) = st)
  ∧ (∀ (m : Nat) (ops : List ManagerOp),
      (apply_manager_ops (init_manager m) ops).active_agents.length ≤ m) := by
  constructor
  · intro st id h
    constructor <;> simp [apply_manager_op, spawn_agent, h]
  · intro m ops
    simpa [init_manager] using
      apply_manager_ops_inv ops (init_manager m) (by simp [init_manager])

/-- Witness for C5: a spawn at ceiling 0 raises the capacity error, and two
spawns against a ceiling of 1 leave at most one active agent. -/
theorem C5_capacity_invariant_witness :
    spawn_agent ⟨0, []⟩ "a" = .error (capacity_error_msg 0) ∧
    (apply_manager_ops (init_manager 1) [.spawn "a", .spawn "b"]).active_agents.length ≤ 1 :=
  ⟨(C5_capacity_invariant.1 ⟨0, []⟩ "a" (by decide)).1,
   C5_capacity_invariant.2 1 [.spawn "a", .spawn "b"]⟩

/-- Claim C1, counterexample: with max_attempts=2 and a body that raises
"boom" on every attempt, `execute_step` does NOT raise the last error to its
caller — it returns a failed `TaskResult` carrying "boom" (after one backoff
sleep of min(1·2¹, 60) = 2). -/
theorem C1_counterexample :
    execute_step ⟨2, 2, 1, 60⟩ (fun _ => some "boom") =
      (.ok (step_failed_result "boom"), [2]) := by
  norm_num [execute_step, retry_loop, backoff_delay]

lemma retry_loop_all_fail (cfg : RetryConfig) (attempt_raises : Nat → Option String) :
    ∀ (fuel rc : Nat) (last : Option String),
      fuel + rc = cfg.max_attempts → rc < cfg.max_attempts →
      (∀ k, rc ≤ k → k < cfg.max_attempts → (attempt_raises k).isSome) →
      retry_loop cfg attempt_raises fuel rc last =
        (.error ((attempt_raises (cfg.max_attempts - 1)).getD ""),
         (List.range' (rc + 1) (cfg.max_attempts - 1 - rc)).map (backoff_delay cfg)) := by
  intro fuel
  induction fuel with
  | zero => intro rc last hfuel hrc _; omega
  | succ fuel ih =>
    intro rc last hfuel hrc hall
    obtain ⟨e, he⟩ := Option.isSome_iff_exists.mp (hall rc le_rfl hrc)
    by_cases hlt : rc + 1 < cfg.max_attempts
    · have hrec := ih (rc + 1) (some e) (by omega) hlt
        (fun k hk1 hk2 => hall k (by omega) hk2)
      have hn : cfg.max_attempts - 1 - rc = (cfg.max_attempts - 1 - (rc + 1)) + 1 := by
        omega
      simp only [retry_loop, he, if_pos hlt, hrec, hn, List.range'_succ, List.map_cons]
    · have hrc1 : cfg.max_attempts - 1 = rc := by omega
      simp [retry_loop, he, if_neg hlt, hrc1, Nat.sub_self]

lemma retry_loop_first_success (cfg : RetryConfig) (attempt_raises : Nat → Option String) :
    ∀ (fuel rc : Nat) (last : Option String) (j : Nat),
      fuel + rc = cfg.max_attempts → rc ≤ j → j < cfg.max_attempts →
      (∀ k, rc ≤ k → k < j → (attempt_raises k).isSome) → attempt_raises j = none →
      retry_loop cfg attempt_raises fuel rc last =
        (.ok step_success_result, (List.range' (rc + 1) (j - rc)).map (backoff_delay cfg)) := by
  intro fuel
  induction fuel with
  | zero => intro rc last j hf hrj hj _ _; omega
  | succ fuel ih =>
    intro rc last j hf hrj hj hfail hj0
    rcases Nat.eq_or_lt_of_le hrj with heq | hlt
    · subst heq
      simp [retry_loop, hj0]
    · obtain ⟨e, he⟩ := Option.isSome_iff_exists.mp (hfail rc le_rfl hlt)
      have hlt2 : rc + 1 < cfg.max_attempts := by omega
      have hrec := ih (rc + 1) (some e) j (by omega) (by omega) hj
        (fun k h1 h2 => hfail k (by omega) h2) hj0
      have hn : j - rc = (j - (rc + 1)) + 1 := by omega
      simp only [retry_loop, he, if_pos hlt2, hrec, hn, List.range'_succ, List.map_cons]

/-- Claim C1 as amended: `execute_step` retries on exception, sleeping
min(initial_delay · multiplier^k, max_delay) before the k-th retry, for up
to max_attempts attempts; but after exhausting all attempts the last error
is caught by the outer handler and returned to the caller inside a failed
`TaskResult` (success=false, errors=[last error]) — it is not raised.  A
body succeeding on 0-based attempt j < max_attempts short-circuits with the
success result after exactly j backoff sleeps. -/
theorem C1_amended_step_retry (cfg : RetryConfig) (attempt_raises : Nat → Option String)
    (h1 : 1 ≤ cfg.max_attempts) :
    ((∀ k, k < cfg.max_attempts → (attempt_raises k).isSome) →
      execute_step cfg attempt_raises =
        (.ok (step_failed_result ((attempt_raises (cfg.max_attempts - 1)).getD "")),
         (List.range' 1 (cfg.max_attempts - 1)).map (backoff_delay cfg)))
  ∧ (∀ j, j < cfg.max_attempts → (∀ k, k < j → (attempt_raises k).isSome) →
      attempt_raises j = none →
      execute_step cfg attempt_raises =
        (.ok step_success_result, (List.range' 1 j).map (backoff_delay cfg))) := by
  constructor
  · intro hall
    have h := retry_loop_all_fail cfg attempt_raises cfg.max_attempts 0 none
      (by omega) (by omega) (fun k _ hk => hall k hk)
    simp [execute_step, h]
  · intro j hj hfail hj0
    have h := retry_loop_first_success cfg attempt_raises cfg.max_attempts 0 none j
      (by omega) (Nat.zero_le _) hj (fun k _ hk => hfail k hk) hj0
    simp [execute_step, h]

/-- Witness for C1's amended theorem: max_attempts=3 with an always-raising
body yields a failed TaskResult (not a raise) after backoff sleeps [2, 4]. -/
theorem C1_amended_step_retry_witness :
    execute_step ⟨3, 2, 1, 60⟩ (fun _ => some "model overloaded") =
      (.ok (step_failed_result "model overloaded"), [2, 4]) := by
  have h := (C1_amended_step_retry ⟨3, 2, 1, 60⟩ (fun _ => some "model overloaded")
      (by norm_num)).1 (fun k _ => rfl)
  rw [h]
  norm_num [backoff_delay, List.range']

lemma lookup_kv_set {α : Type} (store : List (String × α)) (k : String) (v : α) :
    (kv_set store k v).lookup k = some v := by
  induction store with
  | nil => simp [kv_set, List.lookup]
  | cons hd rest ih =>
    obtain ⟨k', v'⟩ := hd
    by_cases h : k' = k
    · simp [kv_set, h, List.lookup]
    · have hne : (k == k') = false := by
        simp only [beq_eq_false_iff_ne]
        exact fun hh => h hh.symm
      simp [kv_set, h, List.lookup, hne, ih]

lemma workflow_state_value_roundtrip (s : WorkflowState) :
    workflow_state_of_value (workflow_state_value s) = some s := by
  cases s <;> rfl

/-- Claim C3, counterexample: persisting `sample_workflow` and restoring it
under its id yields a workflow with EMPTY steps, not the persisted step map,
so the round trip does not preserve `steps`. -/
theorem C3_counterexample :
    restore_state (persist_state [] sample_workflow) "wf-1" =
      some { sample_workflow with steps := [] }
  ∧ (restore_state (persist_state [] sample_workflow) "wf-1").map Workflow.steps ≠
      some sample_workflow.steps := by
  constructor
  · rfl
  · intro h
    simp only [show restore_state (persist_state [] sample_workflow) "wf-1" =
        some { sample_workflow with steps := [] } from rfl, Option.map_some] at h
    exact absurd h (by simp [sample_workflow])

/-- Claim C3 as amended: for every store and workflow, persist followed by
restore under the workflow's id succeeds and returns a workflow agreeing
with the original on workflow id, state, execution order and metadata, but
whose `steps` mapping is empty (the restore path does not reconstruct
steps). -/
theorem C3_amended_persistence_roundtrip (store : WorkflowStore) (w : Workflow) :
    restore_state (persist_state store w) w.workflow_id =
      some { w with steps := [] } := by
  unfold restore_state persist_state
  rw [lookup_kv_set]
  simp [workflow_state_value_roundtrip]

/-- Claim C8: each success sets reliability to min(1, old+0.01), each failure
to max(0, old−0.05), and the average latency to 0.9·old + 0.1·measured;
hence reliability strictly increases on success while below the 1.0 cap and
strictly decreases on failure while above the 0.0 floor. -/
theorem C8_performance_feedback (p : LLMProvider) (latency : ℚ) :
    (update_performance p latency true).reliability_score =
      min 1 (p.reliability_score + 1/100)
  ∧ (update_performance p latency false).reliability_score =
      max 0 (p.reliability_score - 1/20)
  ∧ (update_performance p latency true).avg_latency =
      p.avg_latency * (9/10) + latency * (1/10)
  ∧ (update_performance p latency false).avg_latency =
      p.avg_latency * (9/10) + latency * (1/10)
  ∧ (p.reliability_score < 1 →
      p.reliability_score < (update_performance p latency true).reliability_score)
  ∧ (0 < p.reliability_score →
      (update_performance p latency false).reliability_score < p.reliability_score) := by
  refine ⟨rfl, rfl, rfl, rfl, ?_, ?_⟩
  · intro h
    simp only [update_performance, if_pos]
    rcases le_or_lt (p.reliability_score + 1/100) 1 with h1 | h1
    · rw [min_eq_right h1]; linarith
    · rw [min_eq_left (le_of_lt h1)]; linarith
  · intro h
    simp only [update_performance, if_neg Bool.false_ne_true]
    rcases le_or_lt 0 (p.reliability_score - 1/20) with h1 | h1
    · rw [max_eq_right h1]; linarith
    · rw [max_eq_left (le_of_lt h1)]; linarith

/-- Witness for C8: both strict-monotonicity conjuncts applied to a provider
with reliability 0.5. -/
theorem C8_performance_feedback_witness :
    sample_provider.reliability_score <
      (update_performance sample_provider 3 true).reliability_score
  ∧ (update_performance sample_provider 3 false).reliability_score <
      sample_provider.reliability_score :=
  ⟨(C8_performance_feedback sample_provider 3).2.2.2.2.1
      (by norm_num [sample_provider]),
   (C8_performance_feedback sample_provider 3).2.2.2.2.2
      (by norm_num [sample_provider])⟩

/-- Claim C6: with zero or one response consensus is trivially true (with the
single response selected and its confidence reported), and with two
responses of identical text consensus holds with the higher of the two
confidences reported.  `sim` is the stdlib similarity, assumed only to give
ratio 1 to identical strings. -/
theorem C6_trivial_and_identical_consensus (sim : String → String → ℚ)
    (hsim : ∀ s, sim s s = 1) :
    cross_verify sim [] = ⟨true, none, [], 0⟩
  ∧ (∀ r, cross_verify sim [r] = ⟨true, some r, [], r.confidence⟩)
  ∧ (∀ r1 r2 : LLMResponse, r1.response = r2.response →
      (cross_verify sim [r1, r2]).consensus = true ∧
      (cross_verify sim [r1, r2]).confidence = max r1.confidence r2.confidence) := by
  refine ⟨rfl, fun r => rfl, ?_⟩
  intro r1 r2 htext
  have hsim12 : sim r1.response r2.response = 1 := by
    rw [htext]; exact hsim _
  have hsims : pair_similarities sim [r1, r2] = [1] := by
    simp [pair_similarities, hsim12]
  have h710 : (7/10 : ℚ) < 1 := by norm_num
  have hcv : cross_verify sim [r1, r2] =
      ⟨true, some (if r1.confidence < r2.confidence then r2 else r1), [],
       (if r1.confidence < r2.confidence then r2 else r1).confidence⟩ := by
    simp [cross_verify, hsims, py_max_by_confidence, h710]
  rw [hcv]
  refine ⟨rfl, ?_⟩
  rcases le_or_lt r2.confidence r1.confidence with h | h
  · simp [not_lt.mpr h, max_eq_left h]
  · simp [h, max_eq_right h.le]

/-- Witness for C6: two identical-text responses (confidences 0.9 and 0.7)
reach consensus with reported confidence 0.9. -/
theorem C6_trivial_and_identical_consensus_witness :
    (cross_verify (fun _ _ => 1) [sample_response_a, sample_response_b]).consensus = true ∧
    (cross_verify (fun _ _ => 1) [sample_response_a, sample_response_b]).confidence = 9/10 := by
  have h := (C6_trivial_and_identical_consensus (fun _ _ => 1) (fun _ => rfl)).2.2
    sample_response_a sample_response_b rfl
  refine ⟨h.1, h.2.trans ?_⟩
  norm_num [sample_response_a, sample_response_b]

lemma cross_verify_pair_no_consensus (sim : String → String → ℚ)
    (r1 r2 : LLMResponse) (hle : sim r1.response r2.response ≤ 7/10)
    (hconf : ¬r1.confidence < r2.confidence) (hne : r2 ≠ r1) :
    cross_verify sim [r1, r2] =
      ⟨false, some r1, [⟨r2.provider.model_name, 0⟩], r1.confidence * (1/2)⟩ := by
  simp [cross_verify, pair_similarities, py_max_by_confidence, discrepancy_list,
    hconf, hne, div_one, not_lt.mpr hle]

/-- Claim C7, evaluation at the failing input: two responses with pairwise
similarity 1/4 (average ≤ 0.7).  Consensus is false, the highest-confidence
response is selected and its confidence halved — but the discrepancy listed
for the non-selected response carries similarity 0, produced by indexing the
pair-ordered similarity list with the response's own index (out of range
here), NOT the response's pairwise similarity 1/4 to the selected one. -/
theorem C7_discrepancy_similarity_divergence :
    cross_verify sim_quarter [response_m0, response_m1] =
      ⟨false, some response_m0, [⟨"claude-3-opus-20240229", 0⟩], 9/20⟩
  ∧ sim_quarter response_m1.response response_m0.response = 1/4 := by
  constructor
  · have hne : response_m1 ≠ response_m0 := by
      intro h
      exact absurd (congrArg (fun r => r.provider.provider_name) h) (by decide)
    have h := cross_verify_pair_no_consensus sim_quarter response_m0 response_m1
      (by norm_num [sim_quarter]) (by norm_num [response_m0, response_m1]) hne
    rw [h]
    norm_num [response_m0, response_m1]
  · norm_num [sim_quarter]

lemma ewf_first_success (call : LLMProvider → Except String LLMResponse) :
    ∀ (pre : List LLMProvider) (p : LLMProvider) (rest : List LLMProvider)
      (r : LLMResponse) (last : Option String),
      (∀ q ∈ pre, ∃ e, call q = .error e) → call p = .ok r →
      execute_with_fallback call (pre ++ p :: rest) last =
        (pre.map (fun q => update_performance q 0 false) ++
           update_performance p r.latency true :: rest, .ok r) := by
  intro pre
  induction pre with
  | nil =>
    intro p rest r last _ hp
    simp [execute_with_fallback, hp]
  | cons q pre ih =>
    intro p rest r last hpre hp
    obtain ⟨e, he⟩ := hpre q (by simp)
    have hrec := ih p rest r (some e) (fun q' hq' => hpre q' (by simp [hq'])) hp
    simp [execute_with_fallback, he, hrec]

lemma ewf_all_fail (call : LLMProvider → Except String LLMResponse) :
    ∀ (ps : List LLMProvider) (p : LLMProvider) (e : String) (last : Option String),
      (∀ q ∈ ps, ∃ e', call q = .error e') → call p = .error e →
      execute_with_fallback call (ps ++ [p]) last =
        ((ps ++ [p]).map (fun q => update_performance q 0 false),
         .error ("All LLM providers failed: " ++ e)) := by
  intro ps
  induction ps with
  | nil =>
    intro p e last _ hp
    simp [execute_with_fallback, hp, opt_err_str]
  | cons q ps ih =>
    intro p e last hps hp
    obtain ⟨e', he'⟩ := hps q (by simp)
    have hrec := ih p e (some e') (fun q' hq' => hps q' (by simp [hq'])) hp
    simp [execute_with_fallback, he', hrec]

lemma update_performance_failure_strict (p : LLMProvider)
    (h : 0 < p.reliability_score) :
    (update_performance p 0 false).reliability_score < p.reliability_score := by
  simp only [update_performance, if_neg Bool.false_ne_true]
  rcases le_or_lt 0 (p.reliability_score - 1/20) with h1 | h1
  · rw [max_eq_right h1]; linarith
  · rw [max_eq_left (le_of_lt h1)]; linarith

/-- Claim C9 as amended: ranked providers are tried in order; the first
success short-circuits (the providers ranked after it are untouched); total
failure raises the combined error carrying the last failure; and in the
two-provider scenario where A fails and B succeeds, B's response is
returned, A is scored as a failure (−0.05 floored at 0), which leaves A's
reliability strictly lower PROVIDED it was above the 0.0 floor (an A already
at reliability 0.0 stays at 0.0). -/
theorem C9_amended_ranked_fallback (call : LLMProvider → Except String LLMResponse) :
    (∀ (pre : List LLMProvider) (p : LLMProvider) (rest : List LLMProvider)
        (r : LLMResponse),
      (∀ q ∈ pre, ∃ e, call q = .error e) → call p = .ok r →
      execute_with_fallback call (pre ++ p :: rest) none =
        (pre.map (fun q => update_performance q 0 false) ++
           update_performance p r.latency true :: rest, .ok r))
  ∧ (∀ (ps : List LLMProvider) (p : LLMProvider) (e : String),
      (∀ q ∈ ps, ∃ e', call q = .error e') → call p = .error e →
      execute_with_fallback call (ps ++ [p]) none =
        ((ps ++ [p]).map (fun q => update_performance q 0 false),
         .error ("All LLM providers failed: " ++ e)))
  ∧ (∀ (A B : LLMProvider) (eA : String) (rB : LLMResponse),
      call A = .error eA → call B = .ok rB →
      (execute_with_fallback call [A, B] none).2 = .ok rB ∧
      (execute_with_fallback call [A, B] none).1 =
        [update_performance A 0 false, update_performance B rB.latency true] ∧
      (0 < A.reliability_score →
        (update_performance A 0 false).reliability_score < A.reliability_score)) := by
  refine ⟨fun pre p rest r hpre hp => ewf_first_success call pre p rest r none hpre hp,
          fun ps p e hps hp => ewf_all_fail call ps p e none hps hp, ?_⟩
  intro A B eA rB hA hB
  have hpre : ∀ q ∈ [A], ∃ e, call q = .error e := by
    intro q hq
    simp only [List.mem_singleton] at hq
    exact ⟨eA, hq ▸ hA⟩
  have h := ewf_first_success call [A] B [] rB none hpre hB
  simp only [List.cons_append, List.nil_append, List.map_cons, List.map_nil] at h
  exact ⟨by rw [h], by rw [h],
    fun hpos => update_performance_failure_strict A hpos⟩

/-- Claim C9, counterexample: provider A failing with reliability already
0.0.  B's response is returned as claimed, but A's reliability after the
call equals its value before — it is NOT strictly lower, because the −0.05
failure update floors at 0.0. -/
theorem C9_counterexample :
    (execute_with_fallback call_ab [provider_a_zero, provider_b] none).2 = .ok response_b
  ∧ (update_performance provider_a_zero 0 false).reliability_score =
      provider_a_zero.reliability_score := by
  constructor
  · have h1 : call_ab provider_a_zero = .error "model overloaded" := rfl
    have h2 : call_ab provider_b = .ok response_b := rfl
    simp [execute_with_fallback, h1, h2]
  · norm_num [update_performance, provider_a_zero]

/-- Witness for C9's amended theorem: the two-provider scenario with A at
reliability 0.5 — B's response is returned and A's reliability strictly
drops. -/
theorem C9_amended_ranked_fallback_witness :
    (execute_with_fallback call_ab [provider_a_half, provider_b] none).2 = .ok response_b
  ∧ (update_performance provider_a_half 0 false).reliability_score <
      provider_a_half.reliability_score := by
  have h := (C9_amended_ranked_fallback call_ab).2.2 provider_a_half provider_b
    "model overloaded" response_b rfl rfl
  exact ⟨h.1, h.2.2 (by norm_num [provider_a_half])⟩

/-- Witness for C3's amended theorem at the concrete sample workflow. -/
theorem C3_amended_persistence_roundtrip_witness :
    restore_state (persist_state [] sample_workflow) sample_workflow.workflow_id =
      some { sample_workflow with steps := [] } :=
  C3_amended_persistence_roundtrip [] sample_workflow
